import Mathlib

/-!
Verification development for the ai_shift_assistant repository.

The Python sources under src/app are shallowly embedded below:
  * tools.py    — analyze_tickets, classify_tickets, detect_persistent_sites,
                  create_action_list, generate_summary, send_email;
  * memory.py   — load_memory, save_memory, update_memory;
  * agent.py    — ShiftOrchestratorAgent (_execute_tool, the decision loop,
                  the closure step and run).

Modelling conventions:
  * Python str becomes String; numeric hours become Rat; machine time is an
    explicit parameter.  The field Ticket.last_update stores the result of
    tools._parse_datetime applied to the raw ticket string, as a point in
    time measured in hours (none models a missing or unparsable timestamp).
  * Python dicts with a fixed key set become structures; dict.get fallbacks
    become Option.getD; mutation becomes explicit state passing.
  * Python truthiness on `x or y` fallbacks is modelled per type: an empty
    list, empty string or absent value is falsy; a structure that renders as
    a non-empty dict (Stats, Classifications, SiteResult, ActionList,
    Memory, Report) is always truthy.
  * Calls that can raise an uncaught exception return Except Unit; external
    collaborators (the reasoning backend, the file system, the SMTP server)
    are parameters of the run.
-/

namespace ShiftAssistant

/-! ## Python string primitives -/

/-- Whitespace characters removed by Python str.strip (the default set). -/
def pySpace (c : Char) : Bool :=
  c = ' ' || c = '\t' || c = '\n' || c = '\r' || c = '\x0b' || c = '\x0c'

/-- Python str.strip: drop leading and trailing whitespace. -/
def pyStrip (s : String) : String :=
  ⟨((s.data.dropWhile pySpace).reverse.dropWhile pySpace).reverse⟩

/-- Python str.lower (ASCII view, as used on status and priority tokens). -/
def pyLower (s : String) : String := ⟨s.data.map Char.toLower⟩

/-- tools._norm: `(text or "").strip().lower()`. -/
def pyNorm (t : Option String) : String := pyLower (pyStrip (t.getD ""))

/-- Containment of a character list in another, scanning left to right. -/
def listInfix (pat : List Char) : List Char → Bool
  | [] => pat.isEmpty
  | c :: rest => pat.isPrefixOf (c :: rest) || listInfix pat rest

/-- Python `pat in hay` on strings: substring containment. -/
def strContains (hay pat : String) : Bool := listInfix pat.data hay.data

/-- Python `a or b` on optional strings: a non-empty string wins. -/
def pyOrStrOpt (a b : Option String) : Option String :=
  match a with
  | some s => if s.isEmpty then b else some s
  | none => b

/-- Python `a or b` where a is an optional list and b a list. -/
def pyOrList (a : Option (List α)) (b : List α) : List α :=
  match a with
  | some l => if l.isEmpty then b else l
  | none => b

/-- Python `a or b` for argument values that are always truthy dicts when
present (Stats, Classifications, ActionList, Memory, Report). -/
def pyOrSlot (a b : Option α) : Option α :=
  match a with
  | some x => some x
  | none => b

/-- Python `a or b` where a is an optional string and b a plain string. -/
def pyOrPath (a : Option String) (b : String) : String :=
  match a with
  | some s => if s.isEmpty then b else s
  | none => b

/-- Python f-string rendering of an Optional[str]: None prints as "None". -/
def fmtPy (o : Option String) : String :=
  match o with
  | some s => s
  | none => "None"

/-- Python truthiness of an optional string. -/
def optTruthy (o : Option String) : Bool :=
  match o with
  | some s => !s.isEmpty
  | none => false

/-! ## Insertion-ordered counters (Python dict of int counts) -/

/-- Python `d.get(k, 0)` on an insertion-ordered counter dict. -/
def lookupNat : List (String × Nat) → String → Nat
  | [], _ => 0
  | (a, n) :: rest, k => if a = k then n else lookupNat rest k

/-- Python `d[k] = d.get(k, 0) + 1` on an insertion-ordered counter dict. -/
def bumpAssoc : List (String × Nat) → String → List (String × Nat)
  | [], k => [(k, 1)]
  | (a, n) :: rest, k =>
      if a = k then (a, n + 1) :: rest else (a, n) :: bumpAssoc rest k

/-- Python `l[-n:]`: the most recent n elements of a list. -/
def takeLast (n : Nat) (l : List α) : List α := l.drop (l.length - n)

/-- Lexicographic comparison of character lists by code point, the order
Python sorted uses on strings. -/
def listLe : List Char → List Char → Bool
  | [], _ => true
  | _ :: _, [] => false
  | a :: as, b :: bs =>
      if a.toNat < b.toNat then true
      else if b.toNat < a.toNat then false
      else listLe as bs

/-- Lexicographic string comparison by code point. -/
def strLe (x y : String) : Bool := listLe x.data y.data

/-- Insert a string into an ascending list, keeping it ascending. -/
def insertSorted (x : String) : List String → List String
  | [] => [x]
  | y :: ys => if strLe x y then x :: y :: ys else y :: insertSorted x ys

/-- Python `sorted(set(l))`: the ascending list of the distinct elements. -/
def pySortedSet (l : List String) : List String := l.dedup.foldr insertSorted []

/-! ## Rounding (Python round on the average age) -/

/-- Python round to the nearest integer, ties to even. -/
def roundHalfEven (y : Rat) : Int :=
  let f := Int.floor y
  let r := y - (f : Rat)
  if r < 1 / 2 then f
  else if 1 / 2 < r then f + 1
  else if f % 2 = 0 then f else f + 1

/-- Python round(x, 2). -/
def pyRound2 (x : Rat) : Rat := ((roundHalfEven (x * 100) : Int) : Rat) / 100

/-! ## Data model -/

/-- One service-request ticket, as the dict the tools read.  last_update
stores the result of tools._parse_datetime on the raw timestamp string, in
hours (none models a missing or unparsable timestamp); escalation_flag is
bool(sr.get("escalation_flag")); reopen_count 0 models a falsy value. -/
structure Ticket where
  id : Option String := none
  sr_id : Option String := none
  title : Option String := none
  description : Option String := none
  notes : Option String := none
  status : Option String := none
  priority : Option String := none
  last_update : Option Rat := none
  escalation_flag : Bool := false
  age_hours : Option Rat := none
  site : Option String := none
  node : Option String := none
  reopen_count : Nat := 0
deriving DecidableEq

/-- Output of analyze_tickets.  openCount embeds the "open" key. -/
structure Stats where
  total : Nat
  openCount : Nat
  status_counts : List (String × Nat)
  priority_counts : List (String × Nat)
  avg_age_hours : Rat
deriving DecidableEq

/-- Entry appended to the open_issues list of classify_tickets. -/
structure OpenEntry where
  id : Option String
  title : Option String
  status : Option String
deriving DecidableEq

/-- Entry appended to the follow_up_required list of classify_tickets. -/
structure FuEntry where
  id : Option String
  title : Option String
  status : Option String
  hours_since_update : Option Rat
  reason : String
deriving DecidableEq

/-- Entry appended to the escalations list of classify_tickets. -/
structure EscEntry where
  id : Option String
  title : Option String
  priority : Option String
  reason : String
deriving DecidableEq

/-- Entry appended to the recurrent list of classify_tickets. -/
structure RecEntry where
  id : Option String
  title : Option String
  reason : String
deriving DecidableEq

/-- Output of classify_tickets. -/
structure Classifications where
  open_issues : List OpenEntry
  follow_up_required : List FuEntry
  escalations : List EscEntry
  recurrent : List RecEntry
deriving DecidableEq

/-- Output of detect_persistent_sites. -/
structure SiteResult where
  persistent_sites : List String
  current_counts : List (String × Nat)
deriving DecidableEq

/-- One entry of the action list.  sr_id is some v for the escalation and
follow-up actions (v itself optional, as the source id may be missing) and
none for the sentinel entry, whose dict has no sr_id key. -/
structure Action where
  action : String
  sr_id : Option (Option String)
  priority : String
deriving DecidableEq

/-- Output of create_action_list. -/
structure ActionList where
  actions : List Action
deriving DecidableEq

/-! ## tools.py — the pure analysis components -/

/-- tools.CLOSED_STATUSES. -/
def CLOSED_STATUSES : List String :=
  ["closed", "resolved", "done", "completed", "cancelled"]

/-- tools.HIGH_PRIORITIES. -/
def HIGH_PRIORITIES : List String := ["p1", "p2", "critical", "high", "urgent"]

/-- tools._is_closed. -/
def is_closed (status : Option String) : Bool :=
  CLOSED_STATUSES.contains (pyNorm status)

/-- Accumulator of the analyze_tickets loop. -/
structure AnalyzeAcc where
  status_counts : List (String × Nat)
  priority_counts : List (String × Nat)
  openCount : Nat
  ages : List Rat
deriving DecidableEq

/-- One iteration of the analyze_tickets loop over a ticket. -/
def analyzeStep (acc : AnalyzeAcc) (sr : Ticket) : AnalyzeAcc :=
  let status := if (pyNorm sr.status).isEmpty then "unknown" else pyNorm sr.status
  let priority :=
    if (pyNorm sr.priority).isEmpty then "unknown" else pyNorm sr.priority
  { status_counts := bumpAssoc acc.status_counts status
    priority_counts := bumpAssoc acc.priority_counts priority
    openCount := acc.openCount + (if is_closed (some status) then 0 else 1)
    ages := acc.ages ++ (match sr.age_hours with | some a => [a] | none => []) }

/-- tools.analyze_tickets. -/
def analyze_tickets (srs : List Ticket) : Stats :=
  let acc := srs.foldl analyzeStep ⟨[], [], 0, []⟩
  let avg :=
    if acc.ages.isEmpty then 0 else pyRound2 (acc.ages.sum / (acc.ages.length : Rat))
  ⟨srs.length, acc.openCount, acc.status_counts, acc.priority_counts, avg⟩

/-- tools._ticket_reason. -/
def ticket_reason (sr : Ticket) : String :=
  let status := pyNorm sr.status
  let text := pyNorm sr.title ++ " " ++ pyNorm sr.description ++ " " ++ pyNorm sr.notes
  if strContains status "pending" || strContains status "waiting" then
    "Pending response"
  else if strContains text "vendor" then "Pending vendor"
  else if strContains text "customer" then "Pending customer"
  else if strContains text "waiting" || strContains text "await" then
    "Waiting action"
  else "Needs follow-up"

/-- Hours elapsed since the last update of a ticket, at time now. -/
def hoursSince (now : Rat) (sr : Ticket) : Option Rat :=
  sr.last_update.map (fun lu => now - lu)

/-- The stale flag of the classify_tickets loop. -/
def isStale (now fh : Rat) (sr : Ticket) : Bool :=
  match hoursSince now sr with
  | some h => decide (fh ≤ h)
  | none => false

/-- The needs_followup condition of the classify_tickets loop. -/
def needsFollowup (now fh : Rat) (sr : Ticket) : Bool :=
  !is_closed sr.status &&
    (isStale now fh sr || strContains (pyNorm sr.status) "pending" ||
      strContains (pyNorm sr.status) "waiting")

/-- The escalation_text of the classify_tickets loop. -/
def escText (sr : Ticket) : String :=
  pyNorm sr.title ++ " " ++ pyNorm sr.description ++ " " ++ pyNorm sr.notes

/-- The sla_risk flag of the classify_tickets loop. -/
def slaRisk (now sh : Rat) (sr : Ticket) : Bool :=
  match hoursSince now sr with
  | some h => decide (sh ≤ h)
  | none => false

/-- The escalation condition of the classify_tickets loop. -/
def isEscalation (now sh : Rat) (sr : Ticket) : Bool :=
  sr.escalation_flag || HIGH_PRIORITIES.contains (pyNorm sr.priority) ||
    strContains (escText sr) "sla" || strContains (escText sr) "breach" ||
    strContains (escText sr) "escalat" || slaRisk now sh sr

/-- The entry classify_tickets appends to open_issues for a ticket. -/
def mkOpenEntry (sr : Ticket) : OpenEntry :=
  ⟨pyOrStrOpt sr.id sr.sr_id, sr.title, sr.status⟩

/-- The entry classify_tickets appends to follow_up_required for a ticket. -/
def mkFuEntry (now : Rat) (sr : Ticket) : FuEntry :=
  ⟨pyOrStrOpt sr.id sr.sr_id, sr.title, sr.status, hoursSince now sr,
    ticket_reason sr⟩

/-- The entry classify_tickets appends to escalations for a ticket. -/
def mkEscEntry (sr : Ticket) : EscEntry :=
  ⟨pyOrStrOpt sr.id sr.sr_id, sr.title, sr.priority, "SLA risk or high priority"⟩

/-- The entry classify_tickets appends to recurrent for a ticket. -/
def mkRecEntry (sr : Ticket) : RecEntry :=
  ⟨pyOrStrOpt sr.id sr.sr_id, sr.title, "Repeated reopen"⟩

/-- tools.classify_tickets: one pass over the tickets, each category list in
input order. -/
def classify_tickets (now fh sh : Rat) : List Ticket → Classifications
  | [] => ⟨[], [], [], []⟩
  | sr :: rest =>
    let c := classify_tickets now fh sh rest
    { open_issues :=
        if is_closed sr.status then c.open_issues else mkOpenEntry sr :: c.open_issues
      follow_up_required :=
        if needsFollowup now fh sr then mkFuEntry now sr :: c.follow_up_required
        else c.follow_up_required
      escalations :=
        if isEscalation now sh sr then mkEscEntry sr :: c.escalations
        else c.escalations
      recurrent :=
        if sr.reopen_count ≠ 0 then mkRecEntry sr :: c.recurrent else c.recurrent }

/-! ## memory.py — data model -/

/-- The aggregate counters of the memory document. -/
structure MemStats where
  total_shifts : Nat
  total_srs : Nat
deriving DecidableEq

/-- One bounded shift-history record appended by update_memory. -/
structure ShiftRecord where
  timestamp : String
  shift_id : Option String
  summary : Option String
  stats : Stats
deriving DecidableEq

/-- memory.DEFAULT_MEMORY shape: the durable cross-run document. -/
structure Memory where
  past_shifts : List ShiftRecord
  recurring_sites : List (String × Nat)
  escalations : List EscEntry
  stats : MemStats
deriving DecidableEq

/-- memory.DEFAULT_MEMORY: the zeroed default document. -/
def defaultMemory : Memory := ⟨[], [], [], ⟨0, 0⟩⟩

/-! ## tools.py — detect_persistent_sites and create_action_list -/

/-- The site key of a ticket: site, falling back to node, skipped when the
value is falsy or strips to the empty string (str() on a string is the
identity). -/
def siteKey (sr : Ticket) : Option String :=
  match pyOrStrOpt sr.site sr.node with
  | none => none
  | some s => let k := pyStrip s; if k.isEmpty then none else some k

/-- The current-batch counts dict of detect_persistent_sites, in insertion
order. -/
def buildCounts (srs : List Ticket) : List (String × Nat) :=
  srs.foldl
    (fun acc sr =>
      match siteKey sr with
      | none => acc
      | some k => bumpAssoc acc k)
    []

/-- tools.detect_persistent_sites.  The memory parameter is optional: none
models a falsy memory argument, for which the historical counts are empty. -/
def detect_persistent_sites (srs : List Ticket) (memory : Option Memory)
    (min_recurrence : Int) : SiteResult :=
  let counts := buildCounts srs
  let memCounts : List (String × Nat) :=
    match memory with
    | some m => m.recurring_sites
    | none => []
  let persistent :=
    (counts.filter
        (fun p =>
          decide (min_recurrence ≤ (p.2 : Int)) ||
            decide (min_recurrence ≤ (lookupNat memCounts p.1 : Int)))).map
      Prod.fst
  ⟨pySortedSet persistent, counts⟩

/-- The action create_action_list emits for one escalation entry. -/
def mkEscAction (esc : EscEntry) : Action :=
  ⟨"Escalate SR " ++ fmtPy esc.id ++ " to L2/management", some esc.id,
    pyOrPath esc.priority "high"⟩

/-- The action create_action_list emits for one follow-up entry. -/
def mkFuAction (fu : FuEntry) : Action :=
  ⟨"Follow up on SR " ++ fmtPy fu.id ++ ": " ++ fu.reason, some fu.id, "medium"⟩

/-- The sentinel action create_action_list emits when nothing else was
emitted. -/
def sentinelAction : Action := ⟨"No critical actions detected.", none, "low"⟩

/-- tools.create_action_list: escalation actions, then follow-up actions,
each in source order; the sentinel when both lists are empty.  The srs
parameter is accepted and unused, as in the source. -/
def create_action_list (classifications : Classifications) (srs : List Ticket) :
    ActionList :=
  let _ := srs
  let actions :=
    classifications.escalations.map mkEscAction ++
      classifications.follow_up_required.map mkFuAction
  ⟨if actions.isEmpty then [sentinelAction] else actions⟩

/-! ## tools.py — generate_summary -/

/-- The persistent_sites argument of generate_summary, before the isinstance
normalization: a dict result, a bare list, or any other value (other true
models a truthy non-dict non-list value, other false models None or another
falsy value). -/
inductive PSVal where
  | asDict (d : SiteResult)
  | asList (l : List String)
  | other (truthy : Bool)
deriving DecidableEq

/-- Python truthiness of a PSVal, for the dispatch `or` fallback. -/
def psTruthy : PSVal → Bool
  | .asDict _ => true
  | .asList l => !l.isEmpty
  | .other b => b

/-- The payload generate_summary builds for the reasoning backend.  stats is
optional because the dispatcher can pass a missing stats slot through. -/
structure Payload where
  shift_id : Option String
  stats : Option Stats
  openCount : Nat
  follow_up : Nat
  escalations : Nat
  persistent_sites : List String
  actions : List Action
deriving DecidableEq

/-- Outcome of one llm.generate_text call: the call raises, or returns an
optional string (None models a response with no text). -/
inductive LlmTextResult where
  | raises
  | returns (s : Option String)
deriving DecidableEq

/-- The normalized persistent-site list generate_summary puts in the
payload: a dict keeps its persistent_sites key, a list is wrapped, anything
else becomes the empty dict and yields the empty list. -/
def psNormalize : PSVal → List String
  | .asDict d => d.persistent_sites
  | .asList l => l
  | .other _ => []

/-- The payload generate_summary sends to the backend. -/
def summaryPayload (shift_id : Option String) (stats : Option Stats)
    (cls : Classifications) (ps : PSVal) (al : ActionList) : Payload :=
  ⟨shift_id, stats, cls.open_issues.length, cls.follow_up_required.length,
    cls.escalations.length, psNormalize ps, al.actions⟩

/-- The deterministic fallback template of generate_summary. -/
def mkFallback (shift_id : Option String) (stats : Stats)
    (cls : Classifications) : String :=
  pyStrip
    ("Shift " ++ (shift_id.getD "") ++ " summary: " ++ toString stats.total ++
      " SRs handled, " ++ toString stats.openCount ++ " open, " ++
      toString cls.escalations.length ++ " escalations.")

/-- tools.generate_summary.  classifications and action_list are optional
because the dispatcher can pass a missing slot (Python None) through; the
payload construction then raises AttributeError before the try block, which
the error result models.  The fallback raises the same way when stats is
None.  The llm parameter is the behaviour of llm.generate_text on the
payload. -/
def generate_summary (stats : Option Stats)
    (classifications : Option Classifications) (persistent_sites : PSVal)
    (action_list : Option ActionList) (shift_id : Option String)
    (llm : Payload → LlmTextResult) : Except Unit String :=
  match classifications with
  | none => .error ()
  | some cls =>
    match action_list with
    | none => .error ()
    | some al =>
      let payload := summaryPayload shift_id stats cls persistent_sites al
      let fallback : Except Unit String :=
        match stats with
        | none => .error ()
        | some st => .ok (mkFallback shift_id st cls)
      match llm payload with
      | .returns (some s) =>
        let t := pyStrip s
        if t.isEmpty then fallback else .ok t
      | .returns none => fallback
      | .raises => fallback

/-! ## tools.py — send_email (external collaborator contract) -/

/-- The SMTP settings dict and the process environment variables feeding
send_email: each key resolvable or absent. -/
structure SmtpConfig where
  host : Option String := none
  port : Option String := none
  user : Option String := none
  password : Option String := none
  sender : Option String := none
  toAddr : Option String := none
deriving DecidableEq

/-- The result structure send_email always returns. -/
structure EmailOutcome where
  sent : Bool
  message : String
  toAddr : Option String
deriving DecidableEq

/-- tools.send_email, with the SMTP transport abstracted: envVars models the
os.getenv fallbacks and transport the outcome of the server exchange (ok, or
the exception text).  The report, subject and body only feed the message
content, which the outcome does not depend on. -/
def send_email (toArg : Option String) (smtp_settings : SmtpConfig)
    (envVars : SmtpConfig) (transport : Except String Unit) : EmailOutcome :=
  let host := pyOrStrOpt smtp_settings.host envVars.host
  let sender := pyOrStrOpt smtp_settings.sender envVars.sender
  let recipient :=
    pyOrStrOpt toArg (pyOrStrOpt smtp_settings.toAddr envVars.toAddr)
  if !optTruthy host || !optTruthy sender || !optTruthy recipient then
    ⟨false, "SMTP settings missing; email not sent.", recipient⟩
  else
    match transport with
    | .ok _ => ⟨true, "Email sent.", recipient⟩
    | .error exc => ⟨false, "Email failed: " ++ exc, recipient⟩

/-! ## memory.py — load, save, update -/

/-- memory.load_memory.  The file system is a map from path to contents
(none models a missing or unreadable file) and parse models json.load on the
contents (none models a parse error); both outcomes degrade to the zeroed
default document, and an empty path short-circuits to it. -/
def load_memory (parse : String → Option Memory) (fs : String → Option String)
    (path : String) : Memory :=
  if path.isEmpty then defaultMemory
  else
    match fs path with
    | none => defaultMemory
    | some content => (parse content).getD defaultMemory

/-- memory.save_memory returns False on a falsy path and True after
writing. -/
def save_memory_ok (path : String) : Bool := !path.isEmpty

/-- The report assembled by ShiftOrchestratorAgent.run.  summary, stats and
classifications mirror state.get, whose value can still be None before the
closure step runs. -/
structure Report where
  shift_id : Option String
  summary : Option String
  stats : Option Stats
  classifications : Option Classifications
  actions : List Action
  persistent_sites : List String
deriving DecidableEq

/-- memory.update_memory: increments the aggregate counters, appends one
bounded shift record (cap 50), bumps each persistent site once, and appends
the escalation entries (cap 200).  now_iso is the timestamp string of the
record; a none memory argument models a falsy memory and degrades to the
default document. -/
def update_memory (memory : Option Memory) (report : Report)
    (classifications : Classifications) (persistent_sites : List String)
    (stats : Stats) (now_iso : String) : Memory :=
  let m := memory.getD defaultMemory
  let m :=
    { m with stats := ⟨m.stats.total_shifts + 1, m.stats.total_srs + stats.total⟩ }
  let shiftRec : ShiftRecord := ⟨now_iso, report.shift_id, report.summary, stats⟩
  let m := { m with past_shifts := takeLast 50 (m.past_shifts ++ [shiftRec]) }
  let m :=
    { m with recurring_sites := persistent_sites.foldl bumpAssoc m.recurring_sites }
  { m with escalations := takeLast 200 (m.escalations ++ classifications.escalations) }

/-! ## agent.py — ShiftOrchestratorAgent -/

/-- The decoded argument mapping of one proposed tool invocation: a field is
some v when the key is explicitly present (v itself may be a falsy value
such as the empty list or the empty string) and none when absent.
_parse_args failures yield the empty mapping, all fields none. -/
structure Args where
  srs : Option (List Ticket) := none
  followup_hours : Option Rat := none
  sla_hours : Option Rat := none
  memory : Option Memory := none
  min_recurrence : Option Int := none
  classifications : Option Classifications := none
  stats : Option Stats := none
  persistent_sites : Option PSVal := none
  action_list : Option ActionList := none
  shift_id : Option String := none
  report : Option Report := none
  toAddr : Option String := none
  subject : Option String := none
  smtp_settings : Option SmtpConfig := none
  memory_path : Option String := none
deriving DecidableEq

/-- One proposed tool invocation of a backend reply. -/
structure ToolCall where
  name : String
  arguments : Args
deriving DecidableEq

/-- One reply of llm.chat: free text and the proposed invocation list. -/
structure ChatResponse where
  content : Option String := none
  tool_calls : List ToolCall := []
deriving DecidableEq

/-- The constructor arguments of ShiftOrchestratorAgent. -/
structure Config where
  memoryPath : String
  followupHours : Rat := 8
  slaHours : Rat := 24
  maxSteps : Nat := 10
deriving DecidableEq

/-- The external collaborators of one run: the clock, the reasoning backend
(decision replies indexed by how many decisions were already requested, and
the generate_text behaviour), the file system with the json parser, and the
SMTP environment. -/
structure Env where
  now : Rat
  nowIso : String
  llmChat : Nat → ChatResponse
  llmText : Payload → LlmTextResult
  fs : String → Option String
  parseMem : String → Option Memory
  smtpEnvVars : SmtpConfig
  smtpTransport : Except String Unit

/-- The shared mutable run state of agent.run.  The five artifact slots and
summary start as Python None; report is absent from the dict until run
assembles it. -/
structure State where
  srs : List Ticket
  shift_id : Option String
  memory : Memory
  stats : Option Stats := none
  classifications : Option Classifications := none
  persistent_sites : Option SiteResult := none
  action_list : Option ActionList := none
  summary : Option String := none
  email : Option EmailOutcome := none
  report : Option Report := none
deriving DecidableEq

/-- The initial run state seeded from the batch and the loaded memory. -/
def initState (srs : List Ticket) (shift_id : Option String) (memory : Memory) :
    State :=
  { srs := srs, shift_id := shift_id, memory := memory }

/-- Python truthiness of the summary slot. -/
def summaryTruthy (o : Option String) : Bool :=
  match o with
  | some s => !s.isEmpty
  | none => false

/-- The loop break condition of agent.run: all five artifact slots truthy.
The four structured slots render as non-empty dicts, so presence is
truthiness; the summary must be a non-empty string. -/
def allSet (st : State) : Bool :=
  st.stats.isSome && st.classifications.isSome && st.persistent_sites.isSome &&
    st.action_list.isSome && summaryTruthy st.summary

/-- The persistent_sites value handed to generate_summary by the dispatcher:
the explicit argument when truthy, else the state slot, else Python None. -/
def psChoose (a : Option PSVal) (slot : Option SiteResult) : PSVal :=
  let fallback : PSVal :=
    match slot with
    | some d => .asDict d
    | none => .other false
  match a with
  | some v => if psTruthy v then v else fallback
  | none => fallback

/-- agent._execute_tool: the closed dispatch table.  The state is returned
through Except because two handlers propagate an uncaught Python
AttributeError: create_action_list and generate_summary dereference a None
classifications or action_list slot when neither an explicit argument nor
the state provides one.  An unknown name returns an error payload and
leaves the state unchanged.  save_memory writes the document to disk and
does not touch the state. -/
def executeTool (cfg : Config) (env : Env) (name : String) (args : Args)
    (st : State) : Except Unit State :=
  if name = "analyze_tickets" then
    let srs := pyOrList args.srs st.srs
    .ok { st with stats := some (analyze_tickets srs) }
  else if name = "classify_tickets" then
    let srs := pyOrList args.srs st.srs
    let fh := args.followup_hours.getD cfg.followupHours
    let sh := args.sla_hours.getD cfg.slaHours
    .ok { st with classifications := some (classify_tickets env.now fh sh srs) }
  else if name = "detect_persistent_sites" then
    let srs := pyOrList args.srs st.srs
    let memory := pyOrSlot args.memory (some st.memory)
    let minRec := args.min_recurrence.getD 2
    .ok { st with persistent_sites := some (detect_persistent_sites srs memory minRec) }
  else if name = "create_action_list" then
    match pyOrSlot args.classifications st.classifications with
    | none => .error ()
    | some cls =>
      let srs := pyOrList args.srs st.srs
      .ok { st with action_list := some (create_action_list cls srs) }
  else if name = "generate_summary" then
    let stats := pyOrSlot args.stats st.stats
    let cls := pyOrSlot args.classifications st.classifications
    let ps := psChoose args.persistent_sites st.persistent_sites
    let al := pyOrSlot args.action_list st.action_list
    let sid := pyOrStrOpt args.shift_id st.shift_id
    match generate_summary stats cls ps al sid env.llmText with
    | .error e => .error e
    | .ok s => .ok { st with summary := some s }
  else if name = "send_email" then
    let outcome :=
      send_email args.toAddr (args.smtp_settings.getD {}) env.smtpEnvVars
        env.smtpTransport
    .ok { st with email := some outcome }
  else if name = "save_memory" then .ok st
  else if name = "load_memory" then
    let path := pyOrPath args.memory_path cfg.memoryPath
    .ok { st with memory := load_memory env.parseMem env.fs path }
  else .ok st

/-- Execute the proposed invocations of one reply in order, each mutating
the state before the next is dispatched. -/
def executeCalls (cfg : Config) (env : Env) : List ToolCall → State →
    Except Unit State
  | [], st => .ok st
  | call :: rest, st => do
    let st' ← executeTool cfg env call.name call.arguments st
    executeCalls cfg env rest st'

/-- The free-text branch of the loop: adopt non-empty content as the summary
when none exists yet, then stop. -/
def adoptContent (resp : ChatResponse) (st : State) : State :=
  let content := pyStrip (resp.content.getD "")
  if !content.isEmpty && !summaryTruthy st.summary then
    { st with summary := some content }
  else st

/-- The decision/dispatch loop of agent.run: at most fuel iterations; stop
early when all five artifacts are truthy or the backend proposes no
invocation.  idx counts the decisions already requested from the backend. -/
def runLoop (cfg : Config) (env : Env) : Nat → Nat → State → Except Unit State
  | 0, _, st => .ok st
  | fuel + 1, idx, st =>
    if allSet st then .ok st
    else
      let resp := env.llmChat idx
      match resp.tool_calls with
      | [] => .ok (adoptContent resp st)
      | calls => do
        let st' ← executeCalls cfg env calls st
        runLoop cfg env fuel (idx + 1) st'

/-- The closure step of agent.run after the loop: deterministically backfill
any artifact still missing, in the fixed order stats, classifications,
persistent sites, action list, summary, invoking the pure components with
default thresholds.  memory0 is the document loaded at the start of the run
(the closure reads the local variable, not the state slot).  The summary
backfill calls generate_summary with every input present, so the Except
never fires; errToEmpty unwraps it (the impossible error branch yields the
empty string). -/
def errToEmpty (e : Except Unit String) : String :=
  match e with
  | .ok s => s
  | .error _ => ""

/-- The closure step (see errToEmpty above for the summary unwrapping).
The five sequential backfills of the source each read only slots written
before them, so they are stated as one record update: the action-list
backfill reads the (possibly just backfilled) classifications, and the
summary backfill reads all four ensured artifacts and the unchanged summary
slot. -/
def closure (cfg : Config) (env : Env) (srs : List Ticket) (memory0 : Memory)
    (shift_id : Option String) (st : State) : State :=
  let statsV :=
    match st.stats with
    | some v => v
    | none => analyze_tickets srs
  let clsV :=
    match st.classifications with
    | some v => v
    | none => classify_tickets env.now cfg.followupHours cfg.slaHours srs
  let psV :=
    match st.persistent_sites with
    | some v => v
    | none => detect_persistent_sites srs (some memory0) 2
  let alV :=
    match st.action_list with
    | some v => v
    | none => create_action_list clsV srs
  let sumV :=
    if summaryTruthy st.summary then st.summary
    else
      some
        (errToEmpty
          (generate_summary (some statsV) (some clsV) (.asDict psV) (some alV)
            shift_id env.llmText))
  { st with
    stats := some statsV
    classifications := some clsV
    persistent_sites := some psV
    action_list := some alV
    summary := sumV }

/-- The report dict agent.run assembles from the closed state. -/
def mkReport (shift_id : Option String) (st : State) : Report :=
  { shift_id := shift_id
    summary := st.summary
    stats := st.stats
    classifications := st.classifications
    actions := (st.action_list.map ActionList.actions).getD []
    persistent_sites := (st.persistent_sites.map SiteResult.persistent_sites).getD [] }

/-- What agent.run returns: the report dict splatted together with the email
outcome and the memory_updated flag; savedMemory records the document
handed to memory.save_memory (none when the path is falsy and nothing is
written). -/
structure RunOutput where
  report : Report
  email : Option EmailOutcome
  memory_updated : Bool
  savedMemory : Option Memory
deriving DecidableEq

/-- The fixed report of the empty-batch early return of agent.run. -/
def emptyBatchReport (shift_id : Option String) : Report :=
  { shift_id := shift_id
    summary := some "No SRs provided for this shift."
    stats := some ⟨0, 0, [], [], 0⟩
    classifications := some ⟨[], [], [], []⟩
    actions := [⟨"No actions required.", none, "low"⟩]
    persistent_sites := [] }

/-- agent.ShiftOrchestratorAgent.run.  The result is Except because an
uncaught dispatch exception propagates out of run (see executeTool). -/
def run (cfg : Config) (env : Env) (srs : List Ticket)
    (shift_id : Option String) (notify_email : Bool)
    (email_to : Option String) : Except Unit RunOutput :=
  let memory := load_memory env.parseMem env.fs cfg.memoryPath
  if srs.isEmpty then
    let report := emptyBatchReport shift_id
    let updated :=
      update_memory (some memory) report ⟨[], [], [], []⟩ [] ⟨0, 0, [], [], 0⟩
        env.nowIso
    .ok
      { report := report
        email := none
        memory_updated := save_memory_ok cfg.memoryPath
        savedMemory := if save_memory_ok cfg.memoryPath then some updated else none }
  else do
    let st0 := initState srs shift_id memory
    let stL ← runLoop cfg env cfg.maxSteps 0 st0
    let stF := closure cfg env srs memory shift_id stL
    let report := mkReport shift_id stF
    let updated :=
      update_memory (some memory) report (stF.classifications.getD ⟨[], [], [], []⟩)
        ((stF.persistent_sites.map SiteResult.persistent_sites).getD [])
        (stF.stats.getD ⟨0, 0, [], [], 0⟩) env.nowIso
    let emailRes :=
      if notify_email || optTruthy email_to then
        some (send_email email_to {} env.smtpEnvVars env.smtpTransport)
      else none
    .ok
      { report := report
        email := emailRes
        memory_updated := save_memory_ok cfg.memoryPath
        savedMemory := if save_memory_ok cfg.memoryPath then some updated else none }

/-! ## Helper lemmas -/

theorem mem_insertSorted {x a : String} {l : List String} :
    x ∈ insertSorted a l ↔ x = a ∨ x ∈ l := by
  induction l with
  | nil => simp [insertSorted]
  | cons y ys ih =>
    unfold insertSorted
    split
    · simp [List.mem_cons]
    · simp only [List.mem_cons, ih]
      tauto

theorem mem_foldr_insertSorted {x : String} (l : List String) :
    x ∈ l.foldr insertSorted [] ↔ x ∈ l := by
  induction l with
  | nil => simp
  | cons a as ih => simp [List.foldr_cons, mem_insertSorted, ih]

theorem mem_pySortedSet {x : String} {l : List String} :
    x ∈ pySortedSet l ↔ x ∈ l := by
  unfold pySortedSet
  rw [mem_foldr_insertSorted, List.mem_dedup]

theorem open_issues_not_closed (now fh sh : Rat) (srs : List Ticket)
    (e : OpenEntry) (he : e ∈ (classify_tickets now fh sh srs).open_issues) :
    is_closed e.status = false := by
  induction srs with
  | nil => simp [classify_tickets] at he
  | cons sr rest ih =>
    simp only [classify_tickets] at he
    by_cases hc : is_closed sr.status
    · rw [if_pos hc] at he
      exact ih he
    · rw [if_neg hc] at he
      rcases List.mem_cons.mp he with h | h
      · subst h
        show is_closed sr.status = false
        exact Bool.eq_false_iff.mpr hc
      · exact ih h

theorem follow_up_not_closed (now fh sh : Rat) (srs : List Ticket)
    (e : FuEntry) (he : e ∈ (classify_tickets now fh sh srs).follow_up_required) :
    is_closed e.status = false := by
  induction srs with
  | nil => simp [classify_tickets] at he
  | cons sr rest ih =>
    simp only [classify_tickets] at he
    by_cases hf : needsFollowup now fh sr
    · rw [if_pos hf] at he
      rcases List.mem_cons.mp he with h | h
      · subst h
        have hopen : (!is_closed sr.status) = true := by
          have hf' := hf
          unfold needsFollowup at hf'
          exact (Bool.and_eq_true _ _ |>.mp hf').1
        show is_closed sr.status = false
        simpa using hopen
      · exact ih h
    · rw [if_neg hf] at he
      exact ih he

theorem mem_keys_bumpAssoc {s k : String} {l : List (String × Nat)}
    (h : s ∈ (bumpAssoc l k).map Prod.fst) : s = k ∨ s ∈ l.map Prod.fst := by
  induction l with
  | nil => simpa [bumpAssoc] using h
  | cons p rest ih =>
    obtain ⟨a, n⟩ := p
    unfold bumpAssoc at h
    split at h
    · simp only [List.map_cons, List.mem_cons] at h ⊢
      tauto
    · simp only [List.map_cons, List.mem_cons] at h ⊢
      rcases h with h | h
      · tauto
      · rcases ih h with h2 | h2
        · exact Or.inl h2
        · exact Or.inr (Or.inr h2)

theorem mem_keys_buildCounts_aux {s : String} (srs : List Ticket)
    (acc : List (String × Nat))
    (h : s ∈ (srs.foldl
        (fun acc sr =>
          match siteKey sr with
          | none => acc
          | some k => bumpAssoc acc k) acc).map Prod.fst) :
    s ∈ acc.map Prod.fst ∨ ∃ sr ∈ srs, siteKey sr = some s := by
  induction srs generalizing acc with
  | nil => exact Or.inl (by simpa using h)
  | cons sr rest ih =>
    rw [List.foldl_cons] at h
    rcases ih _ h with h1 | h1
    · rcases hk : siteKey sr with _ | k
      · rw [hk] at h1
        exact Or.inl h1
      · rw [hk] at h1
        rcases mem_keys_bumpAssoc h1 with h2 | h2
        · subst h2
          exact Or.inr ⟨sr, List.mem_cons_self _ _, hk⟩
        · exact Or.inl h2
    · rcases h1 with ⟨u, hu, hus⟩
      exact Or.inr ⟨u, List.mem_cons_of_mem _ hu, hus⟩

theorem mem_keys_buildCounts {s : String} {srs : List Ticket}
    (h : s ∈ (buildCounts srs).map Prod.fst) :
    ∃ sr ∈ srs, siteKey sr = some s := by
  rcases mem_keys_buildCounts_aux srs [] h with h1 | h1
  · simp at h1
  · exact h1

theorem lookupNat_bumpAssoc (l : List (String × Nat)) (k s : String) :
    lookupNat (bumpAssoc l k) s = lookupNat l s + (if k = s then 1 else 0) := by
  induction l with
  | nil =>
    by_cases h : k = s
    · subst h; simp [bumpAssoc, lookupNat]
    · simp [bumpAssoc, lookupNat, h]
  | cons p rest ih =>
    obtain ⟨a, n⟩ := p
    unfold bumpAssoc
    by_cases hak : a = k
    · rw [if_pos hak]
      unfold lookupNat
      by_cases has : a = s
      · have hks : k = s := by rw [← hak]; exact has
        rw [if_pos has, if_pos has, if_pos hks]
      · have hks : ¬ k = s := by rw [← hak]; exact has
        rw [if_neg has, if_neg has, if_neg hks]
        omega
    · rw [if_neg hak]
      unfold lookupNat
      by_cases has : a = s
      · have hks : ¬ k = s := by
          intro hk
          exact hak (by rw [has, ← hk])
        rw [if_pos has, if_pos has, if_neg hks]
        omega
      · rw [if_neg has, if_neg has]
        exact ih

theorem lookupNat_foldl_bumpAssoc (ps : List String) (l : List (String × Nat))
    (s : String) :
    lookupNat (ps.foldl bumpAssoc l) s = lookupNat l s + ps.count s := by
  induction ps generalizing l with
  | nil => simp
  | cons k rest ih =>
    rw [List.foldl_cons, ih, lookupNat_bumpAssoc, List.count_cons]
    by_cases hks : k = s
    · subst hks
      simp
      omega
    · have hsk : ¬ s = k := fun h => hks h.symm
      simp [hks, hsk]

/-! ## Concrete fixtures used by witnesses and counterexamples -/

/-- A closed ticket with otherwise arbitrary fields. -/
def tClosedW : Ticket :=
  { id := some "SR-9", status := some " Closed ", priority := some "P1",
    escalation_flag := true }

/-- An open ticket. -/
def tOpen1 : Ticket := { id := some "SR-1", status := some "open" }

/-- A second open ticket. -/
def tOpen2 : Ticket := { id := some "SR-2", status := some "open" }

/-- An open ticket at site A. -/
def tSiteA1 : Ticket := { id := some "SR-10", status := some "open", site := some "A" }

/-- Another open ticket at site A. -/
def tSiteA2 : Ticket := { id := some "SR-11", status := some "open", site := some "A" }

/-! ## C2 -/

/-- C2: a ticket whose normalized status is in the closed vocabulary is
placed neither in the open_issues list nor in the follow_up_required list of
classify_tickets, whatever its other fields. -/
theorem C2_closed_ticket_never_listed (now fh sh : Rat) (srs : List Ticket)
    (t : Ticket) (hmem : t ∈ srs) (hclosed : is_closed t.status = true) :
    mkOpenEntry t ∉ (classify_tickets now fh sh srs).open_issues ∧
      mkFuEntry now t ∉ (classify_tickets now fh sh srs).follow_up_required := by
  constructor
  · intro hin
    have h1 := open_issues_not_closed now fh sh srs (mkOpenEntry t) hin
    rw [show (mkOpenEntry t).status = t.status from rfl, hclosed] at h1
    simp at h1
  · intro hin
    have h1 := follow_up_not_closed now fh sh srs (mkFuEntry now t) hin
    rw [show (mkFuEntry now t).status = t.status from rfl, hclosed] at h1
    simp at h1

/-- Witness for C2 at a concrete closed ticket inside a concrete batch. -/
theorem C2_witness :
    mkOpenEntry tClosedW ∉
        (classify_tickets 0 8 24 [tOpen1, tClosedW]).open_issues ∧
      mkFuEntry 0 tClosedW ∉
        (classify_tickets 0 8 24 [tOpen1, tClosedW]).follow_up_required :=
  C2_closed_ticket_never_listed 0 8 24 [tOpen1, tClosedW] tClosedW (by decide)
    (by decide)

/-! ## C3 -/

/-- C3: raising the minimum-recurrence threshold can only shrink the
persistent-site set of detect_persistent_sites, holding the batch and the
memory fixed. -/
theorem C3_persistent_sites_antitone (srs : List Ticket)
    (memory : Option Memory) (t1 t2 : Int) (h12 : t1 ≤ t2) (s : String)
    (hs : s ∈ (detect_persistent_sites srs memory t2).persistent_sites) :
    s ∈ (detect_persistent_sites srs memory t1).persistent_sites := by
  unfold detect_persistent_sites at hs ⊢
  rw [mem_pySortedSet] at hs ⊢
  rcases List.mem_map.mp hs with ⟨p, hp, hps⟩
  rcases List.mem_filter.mp hp with ⟨hpc, hcond⟩
  refine List.mem_map.mpr ⟨p, List.mem_filter.mpr ⟨hpc, ?_⟩, hps⟩
  rw [Bool.or_eq_true, decide_eq_true_eq, decide_eq_true_eq] at hcond ⊢
  rcases hcond with h | h
  · exact Or.inl (le_trans h12 h)
  · exact Or.inr (le_trans h12 h)

/-- Witness for C3: site A recurs twice in the batch, so it is persistent at
threshold 2, hence by the theorem also at the lower threshold 1. -/
theorem C3_witness :
    "A" ∈ (detect_persistent_sites [tSiteA1, tSiteA2] none 1).persistent_sites :=
  C3_persistent_sites_antitone [tSiteA1, tSiteA2] none 1 2 (by decide) "A"
    (by decide)

/-! ## C10 -/

/-- C10: every site reported persistent by detect_persistent_sites carries a
ticket of the current batch whose site (or node) key is that site; a site
known only to memory is never reported. -/
theorem C10_persistent_site_has_batch_ticket (srs : List Ticket)
    (memory : Option Memory) (minRec : Int) (s : String)
    (hs : s ∈ (detect_persistent_sites srs memory minRec).persistent_sites) :
    ∃ sr ∈ srs, siteKey sr = some s := by
  unfold detect_persistent_sites at hs
  rw [mem_pySortedSet] at hs
  rcases List.mem_map.mp hs with ⟨p, hp, hps⟩
  rcases List.mem_filter.mp hp with ⟨hpc, _⟩
  exact mem_keys_buildCounts (List.mem_map.mpr ⟨p, hpc, hps⟩)

/-- Witness for C10 at a concrete batch with one recurring site. -/
theorem C10_witness :
    ∃ sr ∈ [tSiteA1, tSiteA2], siteKey sr = some "A" :=
  C10_persistent_site_has_batch_ticket [tSiteA1, tSiteA2]
    (some { defaultMemory with recurring_sites := [("B", 99)] }) 2 "A" (by decide)

/-! ## C4 -/

/-- C4 counterexample: with both input lists empty, create_action_list emits
exactly one entry, and its action text is not the claimed string
"no actions required"; the sentinel text in the code is
"No critical actions detected.". -/
theorem C4_counterexample :
    (create_action_list ⟨[], [], [], []⟩ []).actions.length = 1 ∧
      (∀ a ∈ (create_action_list ⟨[], [], [], []⟩ []).actions,
        a.action ≠ "no actions required") ∧
      (create_action_list ⟨[], [], [], []⟩ []).actions =
        [⟨"No critical actions detected.", none, "low"⟩] := by
  refine ⟨rfl, ?_, rfl⟩
  decide

/-- C4 amended: with both lists empty the action list is exactly the one
sentinel entry with text "No critical actions detected." and priority "low";
otherwise it is one escalation action per escalation followed by one
follow-up action per follow-up, preserving each source list's order. -/
theorem C4_sentinel_and_action_order (cls : Classifications)
    (srs : List Ticket) :
    (cls.escalations = [] → cls.follow_up_required = [] →
      (create_action_list cls srs).actions =
        [⟨"No critical actions detected.", none, "low"⟩]) ∧
      ((cls.escalations ≠ [] ∨ cls.follow_up_required ≠ []) →
        (create_action_list cls srs).actions =
          cls.escalations.map mkEscAction ++
            cls.follow_up_required.map mkFuAction) := by
  constructor
  · intro h1 h2
    simp [create_action_list, h1, h2, sentinelAction]
  · intro h
    have hne :
        (cls.escalations.map mkEscAction ++
            cls.follow_up_required.map mkFuAction).isEmpty = false := by
      apply Bool.eq_false_iff.mpr
      intro hi
      have h0 := List.isEmpty_iff.mp hi
      rw [List.append_eq_nil] at h0
      obtain ⟨h1, h2⟩ := h0
      rw [List.map_eq_nil_iff] at h1 h2
      rcases h with h | h
      · exact h h1
      · exact h h2
    simp [create_action_list, hne]

/-- Witness for C4 at a concrete non-empty classification input. -/
theorem C4_witness :
    (create_action_list
          ⟨[], [⟨some "SR-2", none, some "open", none, "Needs follow-up"⟩],
            [⟨some "SR-1", none, some "P1", "SLA risk or high priority"⟩], []⟩
          []).actions =
      [mkEscAction ⟨some "SR-1", none, some "P1", "SLA risk or high priority"⟩,
        mkFuAction ⟨some "SR-2", none, some "open", none, "Needs follow-up"⟩] :=
  (C4_sentinel_and_action_order
        ⟨[], [⟨some "SR-2", none, some "open", none, "Needs follow-up"⟩],
          [⟨some "SR-1", none, some "P1", "SLA risk or high priority"⟩], []⟩
        []).2
    (Or.inl (by decide))

/-! ## C5 -/

/-- C5: generate_summary on fully present typed inputs never raises, and
whenever the backend call raises, returns no text, or returns only
whitespace, it returns exactly the deterministic fallback template computed
from the stats totals and the escalation count. -/
theorem C5_summary_fallback (stats : Stats) (cls : Classifications)
    (ps : PSVal) (al : ActionList) (sid : Option String)
    (llm : Payload → LlmTextResult) :
    (∀ llm2 : Payload → LlmTextResult, ∃ s,
        generate_summary (some stats) (some cls) ps (some al) sid llm2 =
          .ok s) ∧
      ((llm (summaryPayload sid (some stats) cls ps al) = .raises ∨
          llm (summaryPayload sid (some stats) cls ps al) = .returns none ∨
          ∃ w, llm (summaryPayload sid (some stats) cls ps al) =
              .returns (some w) ∧ pyStrip w = "") →
        generate_summary (some stats) (some cls) ps (some al) sid llm =
          .ok (mkFallback sid stats cls)) := by
  constructor
  · intro llm2
    cases hres : llm2 (summaryPayload sid (some stats) cls ps al) with
    | raises => exact ⟨mkFallback sid stats cls, by simp [generate_summary, hres]⟩
    | returns s =>
      cases s with
      | none => exact ⟨mkFallback sid stats cls, by simp [generate_summary, hres]⟩
      | some w =>
        by_cases he : (pyStrip w).isEmpty
        · exact ⟨mkFallback sid stats cls, by simp [generate_summary, hres, he]⟩
        · exact ⟨pyStrip w, by simp [generate_summary, hres, he]⟩
  · intro h
    rcases h with h | h | ⟨w, hw, hws⟩
    · simp [generate_summary, h]
    · simp [generate_summary, h]
    · have he : (pyStrip w).isEmpty = true := by rw [hws]; rfl
      simp [generate_summary, hw, he]

/-- Witness for C5: a backend that raises yields exactly the template. -/
theorem C5_witness :
    generate_summary (some ⟨2, 1, [("open", 1), ("closed", 1)], [], 0⟩)
        (some ⟨[⟨some "SR-1", none, some "open"⟩], [], [], []⟩) (.other false)
        (some ⟨[]⟩) (some "S7") (fun _ => .raises) =
      .ok
        (mkFallback (some "S7") ⟨2, 1, [("open", 1), ("closed", 1)], [], 0⟩
          ⟨[⟨some "SR-1", none, some "open"⟩], [], [], []⟩) :=
  (C5_summary_fallback ⟨2, 1, [("open", 1), ("closed", 1)], [], 0⟩
        ⟨[⟨some "SR-1", none, some "open"⟩], [], [], []⟩ (.other false) ⟨[]⟩
        (some "S7") (fun _ => .raises)).2
    (Or.inl rfl)

/-! ## C6 -/

/-- C6: load_memory is total and degrades to the zeroed default document on
an empty path, a missing or unreadable file, or a parse failure; on any
successful read and parse it returns the parsed document. -/
theorem C6_load_memory_degrades (parse : String → Option Memory)
    (fs : String → Option String) (path : String) :
    (path = "" → load_memory parse fs path = defaultMemory) ∧
      (fs path = none → load_memory parse fs path = defaultMemory) ∧
      (∀ c, fs path = some c → parse c = none →
        load_memory parse fs path = defaultMemory) ∧
      (∀ c m, path ≠ "" → fs path = some c → parse c = some m →
        load_memory parse fs path = m) := by
  refine ⟨?_, ?_, ?_, ?_⟩
  · intro h
    subst h
    rfl
  · intro h
    unfold load_memory
    split
    · rfl
    · rw [h]
  · intro c hc hp
    unfold load_memory
    split
    · rfl
    · rw [hc]
      show (parse c).getD defaultMemory = defaultMemory
      rw [hp]
      rfl
  · intro c m hpath hc hp
    unfold load_memory
    have hi : path.isEmpty = false := by
      apply Bool.eq_false_iff.mpr
      intro hie
      exact hpath ((String.isEmpty_iff path).mp hie)
    rw [hi]
    simp only [Bool.false_eq_true, if_false]
    rw [hc]
    show (parse c).getD defaultMemory = m
    rw [hp]
    rfl

/-- Concrete parser fixture for the C6 witness. -/
def parseW : String → Option Memory := fun s =>
  if s = "doc" then some { defaultMemory with stats := ⟨3, 7⟩ } else none

/-- Concrete file-system fixture for the C6 witness. -/
def fsW : String → Option String := fun p =>
  if p = "mem.json" then some "doc" else none

/-- Witness for C6: a readable, parsable file loads as the parsed document. -/
theorem C6_witness :
    load_memory parseW fsW "mem.json" =
      { defaultMemory with stats := ⟨3, 7⟩ } :=
  (C6_load_memory_degrades parseW fsW "mem.json").2.2.2 "doc"
    { defaultMemory with stats := ⟨3, 7⟩ } (by decide) (by decide) (by decide)

/-! ## C7 -/

theorem takeLast_length (n : Nat) (l : List α) :
    (takeLast n l).length = min l.length n := by
  unfold takeLast
  rw [List.length_drop]
  omega

set_option maxRecDepth 4096 in
set_option maxHeartbeats 1000000 in
/-- C7: update_memory is additive and bounded.  One call increments
total_shifts by 1 and total_srs by the run's stats total; it appends exactly
one shift record keeping the most recent 50; it appends the escalation
entries keeping the most recent 200; it bumps each persistent site's
historical counter by its multiplicity in the persistent list and never
decreases any counter; and two successive calls add the two stats totals. -/
theorem C7_update_memory_additive (m : Memory) (report : Report)
    (cls : Classifications) (persistent : List String) (stats : Stats)
    (ts : String) :
    (update_memory (some m) report cls persistent stats ts).stats.total_shifts =
        m.stats.total_shifts + 1 ∧
      (update_memory (some m) report cls persistent stats ts).stats.total_srs =
        m.stats.total_srs + stats.total ∧
      (update_memory (some m) report cls persistent stats ts).past_shifts =
        takeLast 50
          (m.past_shifts ++ [⟨ts, report.shift_id, report.summary, stats⟩]) ∧
      (update_memory (some m) report cls persistent stats ts).past_shifts.length =
        min (m.past_shifts.length + 1) 50 ∧
      (update_memory (some m) report cls persistent stats ts).escalations =
        takeLast 200 (m.escalations ++ cls.escalations) ∧
      (∀ s,
        lookupNat
            (update_memory (some m) report cls persistent stats ts).recurring_sites
            s =
          lookupNat m.recurring_sites s + persistent.count s) ∧
      (∀ s,
        lookupNat m.recurring_sites s ≤
          lookupNat
            (update_memory (some m) report cls persistent stats ts).recurring_sites
            s) ∧
      (∀ (r2 : Report) (c2 : Classifications) (p2 : List String) (s2 : Stats)
          (t2 : String),
        (update_memory (some (update_memory (some m) report cls persistent stats ts))
              r2 c2 p2 s2 t2).stats.total_srs =
          m.stats.total_srs + stats.total + s2.total) := by
  have h3 : (update_memory (some m) report cls persistent stats ts).past_shifts =
      takeLast 50 (m.past_shifts ++ [⟨ts, report.shift_id, report.summary, stats⟩]) :=
    rfl
  have h6 : (update_memory (some m) report cls persistent stats ts).recurring_sites =
      persistent.foldl bumpAssoc m.recurring_sites := rfl
  have h2 : (update_memory (some m) report cls persistent stats ts).stats.total_srs =
      m.stats.total_srs + stats.total := rfl
  refine ⟨rfl, rfl, rfl, ?_, rfl, ?_, ?_, ?_⟩
  · rw [h3, takeLast_length, List.length_append]
    rfl
  · intro s
    rw [h6]
    exact lookupNat_foldl_bumpAssoc persistent m.recurring_sites s
  · intro s
    rw [h6, lookupNat_foldl_bumpAssoc persistent m.recurring_sites s]
    omega
  · intro r2 c2 p2 s2 t2
    have h8 : (update_memory
          (some (update_memory (some m) report cls persistent stats ts)) r2 c2 p2
          s2 t2).stats.total_srs =
        (update_memory (some m) report cls persistent stats ts).stats.total_srs +
          s2.total := rfl
    rw [h8, h2]

/-! ## Concrete agent fixtures -/

/-- A configuration with an empty (falsy) memory path and defaults. -/
def cfgW : Config := { memoryPath := "" }

/-- A baseline environment: no memory file, a backend that proposes nothing
and raises on text generation, no SMTP configuration. -/
def envW : Env :=
  { now := 0
    nowIso := "2024-01-01T00:00:00Z"
    llmChat := fun _ => {}
    llmText := fun _ => .raises
    fs := fun _ => none
    parseMem := fun _ => none
    smtpEnvVars := {}
    smtpTransport := .error "unavailable" }

/-! ## C8 -/

/-- C8 counterexample: dispatching analyze_tickets with the explicitly
present argument srs = [] does not use the explicit empty list: the handler
falls back to the state slot holding one ticket, so the computed stats count
that ticket, which differs from the stats of the explicit empty list. -/
theorem C8_counterexample :
    executeTool cfgW envW "analyze_tickets" { srs := some [] }
        (initState [tOpen1] none defaultMemory) =
      .ok { initState [tOpen1] none defaultMemory with
              stats := some (analyze_tickets [tOpen1]) } ∧
      analyze_tickets [tOpen1] ≠ analyze_tickets [] :=
  ⟨rfl, by decide⟩

/-- C8 amended: each handler resolves an argument through the Python `or`
fallback, so a present truthy argument overrides the state slot, a present
falsy argument (empty list, empty string) falls back exactly like an absent
one, and only the numeric threshold arguments (followup_hours, sla_hours,
min_recurrence), read through dict.get with a default, use any explicitly
present value. -/
theorem C8_argument_resolution (cfg : Config) (env : Env) (args : Args)
    (st : State) :
    (executeTool cfg env "analyze_tickets" args st =
        .ok { st with stats := some (analyze_tickets (pyOrList args.srs st.srs)) }) ∧
      (executeTool cfg env "classify_tickets" args st =
        .ok { st with
            classifications :=
              some
                (classify_tickets env.now (args.followup_hours.getD cfg.followupHours)
                  (args.sla_hours.getD cfg.slaHours) (pyOrList args.srs st.srs)) }) ∧
      (executeTool cfg env "detect_persistent_sites" args st =
        .ok { st with
            persistent_sites :=
              some
                (detect_persistent_sites (pyOrList args.srs st.srs)
                  (pyOrSlot args.memory (some st.memory))
                  (args.min_recurrence.getD 2)) }) ∧
      (pyOrSlot args.classifications st.classifications = none →
        executeTool cfg env "create_action_list" args st = .error ()) ∧
      (∀ cls, pyOrSlot args.classifications st.classifications = some cls →
        executeTool cfg env "create_action_list" args st =
          .ok { st with
              action_list := some (create_action_list cls (pyOrList args.srs st.srs)) }) ∧
      (executeTool cfg env "generate_summary" args st =
        Except.map (fun s => { st with summary := some s })
          (generate_summary (pyOrSlot args.stats st.stats)
            (pyOrSlot args.classifications st.classifications)
            (psChoose args.persistent_sites st.persistent_sites)
            (pyOrSlot args.action_list st.action_list)
            (pyOrStrOpt args.shift_id st.shift_id) env.llmText)) ∧
      (executeTool cfg env "load_memory" args st =
        .ok { st with
            memory :=
              load_memory env.parseMem env.fs
                (pyOrPath args.memory_path cfg.memoryPath) }) ∧
      (args.srs = some [] →
        executeTool cfg env "analyze_tickets" args st =
          .ok { st with stats := some (analyze_tickets st.srs) }) ∧
      (∀ l, args.srs = some l → l.isEmpty = false →
        executeTool cfg env "analyze_tickets" args st =
          .ok { st with stats := some (analyze_tickets l) }) ∧
      (∀ q, args.followup_hours = some q →
        executeTool cfg env "classify_tickets" args st =
          .ok { st with
              classifications :=
                some
                  (classify_tickets env.now q (args.sla_hours.getD cfg.slaHours)
                    (pyOrList args.srs st.srs)) }) := by
  have ecreate : executeTool cfg env "create_action_list" args st =
      (match pyOrSlot args.classifications st.classifications with
        | none => .error ()
        | some cls =>
          .ok { st with
              action_list := some (create_action_list cls (pyOrList args.srs st.srs)) }) :=
    rfl
  have esum : executeTool cfg env "generate_summary" args st =
      (match
          generate_summary (pyOrSlot args.stats st.stats)
            (pyOrSlot args.classifications st.classifications)
            (psChoose args.persistent_sites st.persistent_sites)
            (pyOrSlot args.action_list st.action_list)
            (pyOrStrOpt args.shift_id st.shift_id) env.llmText with
        | .error e => .error e
        | .ok s => .ok { st with summary := some s }) := rfl
  have eanalyze : executeTool cfg env "analyze_tickets" args st =
      .ok { st with stats := some (analyze_tickets (pyOrList args.srs st.srs)) } := rfl
  have eclassify : executeTool cfg env "classify_tickets" args st =
      .ok { st with
          classifications :=
            some
              (classify_tickets env.now (args.followup_hours.getD cfg.followupHours)
                (args.sla_hours.getD cfg.slaHours) (pyOrList args.srs st.srs)) } := rfl
  refine ⟨eanalyze, eclassify, rfl, ?_, ?_, ?_, rfl, ?_, ?_, ?_⟩
  · intro h
    rw [ecreate, h]
  · intro cls h
    rw [ecreate, h]
  · rw [esum]
    cases generate_summary (pyOrSlot args.stats st.stats)
        (pyOrSlot args.classifications st.classifications)
        (psChoose args.persistent_sites st.persistent_sites)
        (pyOrSlot args.action_list st.action_list)
        (pyOrStrOpt args.shift_id st.shift_id) env.llmText with
    | error e => rfl
    | ok s => rfl
  · intro h
    rw [eanalyze, h]
    rfl
  · intro l h hl
    rw [eanalyze, h]
    simp [pyOrList, hl]
  · intro q h
    rw [eclassify, h]
    rfl

/-! ## C9 -/

/-- A backend script that dispatches analyze_tickets twice with different
explicit batches, then stops. -/
def chatC9 : Nat → ChatResponse := fun n =>
  match n with
  | 0 => { tool_calls := [⟨"analyze_tickets", { srs := some [tOpen1] }⟩] }
  | 1 => { tool_calls := [⟨"analyze_tickets", { srs := some [tOpen1, tOpen2] }⟩] }
  | _ => {}

/-- The baseline environment driven by the chatC9 script. -/
def envC9 : Env := { envW with llmChat := chatC9 }

/-- The initial state of the C9 run. -/
def stC9 : State := initState [tOpen1, tOpen2] none defaultMemory

/-- C9 counterexample: within one loop, the first dispatch sets the stats
slot to the stats of one ticket, and the loop ends with the slot holding the
stats of two tickets — the slot set by the first dispatch was overwritten by
the second dispatch of the same operation. -/
theorem C9_counterexample :
    executeTool cfgW envC9 "analyze_tickets" { srs := some [tOpen1] } stC9 =
        .ok { stC9 with stats := some (analyze_tickets [tOpen1]) } ∧
      runLoop cfgW envC9 10 0 stC9 =
        .ok { stC9 with stats := some (analyze_tickets [tOpen1, tOpen2]) } ∧
      analyze_tickets [tOpen1] ≠ analyze_tickets [tOpen1, tOpen2] :=
  ⟨rfl, rfl, by decide⟩

set_option maxHeartbeats 1000000 in
/-- C9 amended: a dispatched operation writes only its own artifact slot
(every other slot is preserved), and the closure step never overwrites a
slot that is already set (truthy); hence a set slot can only change when the
operation owning it is dispatched again. -/
theorem C9_overwrite_discipline (cfg : Config) (env : Env) :
    (∀ (name : String) (args : Args) (st st' : State),
        executeTool cfg env name args st = .ok st' →
          (name ≠ "analyze_tickets" → st'.stats = st.stats) ∧
            (name ≠ "classify_tickets" → st'.classifications = st.classifications) ∧
            (name ≠ "detect_persistent_sites" →
              st'.persistent_sites = st.persistent_sites) ∧
            (name ≠ "create_action_list" → st'.action_list = st.action_list) ∧
            (name ≠ "generate_summary" → st'.summary = st.summary)) ∧
      (∀ (srs : List Ticket) (memory0 : Memory) (sid : Option String) (st : State),
        (∀ v, st.stats = some v →
          (closure cfg env srs memory0 sid st).stats = some v) ∧
          (∀ v, st.classifications = some v →
            (closure cfg env srs memory0 sid st).classifications = some v) ∧
          (∀ v, st.persistent_sites = some v →
            (closure cfg env srs memory0 sid st).persistent_sites = some v) ∧
          (∀ v, st.action_list = some v →
            (closure cfg env srs memory0 sid st).action_list = some v) ∧
          (summaryTruthy st.summary = true →
            (closure cfg env srs memory0 sid st).summary = st.summary)) := by
  constructor
  · intro name args st st' h
    unfold executeTool at h
    split_ifs at h with h1 h2 h3 h4 h5 h6 h7 h8
    · injection h with h0
      subst h0
      exact ⟨fun hn => absurd h1 hn, fun _ => rfl, fun _ => rfl, fun _ => rfl,
        fun _ => rfl⟩
    · injection h with h0
      subst h0
      exact ⟨fun _ => rfl, fun hn => absurd h2 hn, fun _ => rfl, fun _ => rfl,
        fun _ => rfl⟩
    · injection h with h0
      subst h0
      exact ⟨fun _ => rfl, fun _ => rfl, fun hn => absurd h3 hn, fun _ => rfl,
        fun _ => rfl⟩
    · split at h
      · exact absurd h (by simp)
      · injection h with h0
        subst h0
        exact ⟨fun _ => rfl, fun _ => rfl, fun _ => rfl, fun hn => absurd h4 hn,
          fun _ => rfl⟩
    · dsimp only at h
      split at h
      · exact absurd h (by simp)
      · injection h with h0
        subst h0
        exact ⟨fun _ => rfl, fun _ => rfl, fun _ => rfl, fun _ => rfl,
          fun hn => absurd h5 hn⟩
    · injection h with h0
      subst h0
      exact ⟨fun _ => rfl, fun _ => rfl, fun _ => rfl, fun _ => rfl, fun _ => rfl⟩
    · injection h with h0
      subst h0
      exact ⟨fun _ => rfl, fun _ => rfl, fun _ => rfl, fun _ => rfl, fun _ => rfl⟩
    · injection h with h0
      subst h0
      exact ⟨fun _ => rfl, fun _ => rfl, fun _ => rfl, fun _ => rfl, fun _ => rfl⟩
    · injection h with h0
      subst h0
      exact ⟨fun _ => rfl, fun _ => rfl, fun _ => rfl, fun _ => rfl, fun _ => rfl⟩
  · intro srs memory0 sid st
    refine ⟨?_, ?_, ?_, ?_, ?_⟩
    · intro v hv
      show some (match st.stats with
        | some v => v
        | none => analyze_tickets srs) = some v
      rw [hv]
    · intro v hv
      show some (match st.classifications with
        | some v => v
        | none => classify_tickets env.now cfg.followupHours cfg.slaHours srs) =
        some v
      rw [hv]
    · intro v hv
      show some (match st.persistent_sites with
        | some v => v
        | none => detect_persistent_sites srs (some memory0) 2) = some v
      rw [hv]
    · intro v hv
      show some (match st.action_list with
        | some v => v
        | none =>
          create_action_list
            (match st.classifications with
              | some v => v
              | none => classify_tickets env.now cfg.followupHours cfg.slaHours srs)
            srs) = some v
      rw [hv]
    · intro hv
      show (if summaryTruthy st.summary then st.summary else _) = st.summary
      rw [hv]
      exact if_pos rfl

/-! ## C1 -/

/-- A backend whose first decision proposes create_action_list with empty
arguments, before any classification exists. -/
def chatBug : Nat → ChatResponse := fun _ =>
  { tool_calls := [⟨"create_action_list", {}⟩] }

/-- The baseline environment driven by the chatBug script. -/
def envBug : Env := { envW with llmChat := chatBug }

/-- C1: a backend that proposes create_action_list before any
classification step makes the dispatcher pass Python None into
create_action_list, whose None.get dereference raises an uncaught
AttributeError, so run propagates the error and returns no report.  This
exhibits the failing input of the claim: the step-bounded loop does not
return a fully-populated report for every backend behaviour. -/
theorem C1_premature_action_list_crashes :
    run cfgW envBug [tOpen1] (some "S1") false none = .error () := rfl

end ShiftAssistant
